import Mathlib

/-
Verification of the RAG_SYS_Demo retrieval-augmented answering core.

This file gives a shallow embedding, in Lean 4, of the Python code in
`src/services/vectorization.py`, `src/services/llm_service.py` and
`src/agents/rag_agent.py`, and proves (or refutes) the behavioural claims of
the natural-language specification against it.

Modelling conventions:
  - Python dictionaries used as metadata maps become association lists
    (`Dict`) with Python `dict.update` semantics (`dictUpdate`): an existing
    key keeps its position and gets the new value, a fresh key is appended.
  - Python `lst[-n:]` becomes `pySliceLast` (note the CPython quirk that
    `lst[-0:]` is the whole list).
  - Timestamps (`datetime.now().isoformat()`) and digest values
    (`hashlib.md5`, `hashlib.sha256`) are data-only fields: no branch of the
    translated code reads them.  Timestamps are dropped from the model;
    digests are threaded as explicit parameters (`Watermark`, `md5Hex`), so
    every theorem holds for every value of the digest functions.
  - Calls into external providers (the OpenAI/Groq chat model, the FAISS
    library) are oracles: the embedding takes the outcome of the external
    call as an explicit `Except` argument and quantifies over it.
  - Exceptions become `Except` results; the distinct Python exception types
    that the code can raise are the constructors of `PyError`.
-/

namespace RAGSys

/-- A Python scalar value stored in a metadata dictionary. -/
inductive PyVal where
  | s (v : String)
  | i (v : Nat)
deriving DecidableEq, Repr

/-- A Python `dict` with string keys, in insertion order. -/
abbrev Dict := List (String × PyVal)

/-- One key assignment `d[k] = v`: an existing key keeps its position and is
overwritten, a fresh key is appended (CPython insertion-order semantics). -/
def dictSet (d : Dict) (k : String) (v : PyVal) : Dict :=
  if (d.lookup k).isSome then
    d.map (fun kv => if kv.1 = k then (k, v) else kv)
  else
    d ++ [(k, v)]

/-- Python `d.update(kvs)`. -/
def dictUpdate (d : Dict) (kvs : List (String × PyVal)) : Dict :=
  kvs.foldl (fun acc kv => dictSet acc kv.1 kv.2) d

/-- Python `lst[-n:]` for a non-negative `n`.  CPython quirk: `lst[-0:]` is
the whole list, and `lst[-n:]` for `n ≥ len(lst)` is also the whole list. -/
def pySliceLast (n : Nat) (l : List α) : List α :=
  if n = 0 then l else l.drop (l.length - n)

/-- Python `s[:n]` on a string, as a list-of-characters operation. -/
def pyStrTake (n : Nat) (s : String) : String :=
  String.mk (s.toList.take n)

/-- Python `x or default` for an optional integer argument (`None` and `0`
are both falsy, so both select the default). -/
def pyOrNat (x : Option Nat) (default : Nat) : Nat :=
  match x with
  | none => default
  | some n => if n = 0 then default else n

/-- The global `watermark` singleton of `src/utils/watermark.py`, reduced to
the one field the translated code reads: `_signature_hash` (a sha256 hex
digest; its concrete value never influences control flow, so it is kept
abstract and quantified over). -/
structure Watermark where
  signature_hash : String
deriving DecidableEq, Repr

/- ===================== Conversation memory ======================
   `src/services/llm_service.py`, class `ConversationMemory`. -/

/-- One entry of `conversations[session_id]["messages"]`.  The Python dict
also stores a `timestamp` and a `message_hash`; neither is ever read by any
branch of the code, so they are dropped from the model. -/
structure Message where
  role : String
  content : String
deriving DecidableEq, Repr

/-- Python `ConversationMemory.__init__(max_history=10)`: `conversations` starts as
an empty dict.  The per-session dict also records `created_at`, `watermark`
and `author`; only the `"messages"` list is ever read back, so a session is
modelled by its message list. -/
structure ConversationMemory where
  max_history : Nat
  conversations : String → Option (List Message)

/-- A fresh `ConversationMemory(max_history)`. -/
def ConversationMemory.init (max_history : Nat) : ConversationMemory :=
  ⟨max_history, fun _ => none⟩

/-- Python `ConversationMemory.add_message`: append the message to the session
(creating the session on first use), then trim the list to the last
`max_history * 2` entries whenever it exceeds that bound
(`messages[-self.max_history * 2:]`). -/
def ConversationMemory.add_message (m : ConversationMemory)
    (session_id role content : String) : ConversationMemory :=
  let msgs := (m.conversations session_id).getD []
  let msgs := msgs ++ [⟨role, content⟩]
  let msgs :=
    if m.max_history * 2 < msgs.length then pySliceLast (m.max_history * 2) msgs
    else msgs
  { m with conversations := fun s => if s = session_id then some msgs else m.conversations s }

/-- Python `ConversationMemory.get_history`: the stored message list, `[]` for an
unknown session. -/
def ConversationMemory.get_history (m : ConversationMemory) (session_id : String) :
    List Message :=
  (m.conversations session_id).getD []

/-- A sequence of `add_message` calls against one session. -/
def ConversationMemory.add_all (m : ConversationMemory) (session_id : String)
    (ts : List Message) : ConversationMemory :=
  ts.foldl (fun acc t => acc.add_message session_id t.role t.content) m

/-- The effect of one `add_message` call on the stored message list of the
targeted session (append, then trim to the last `cap` entries). -/
def trimStep (cap : Nat) (l : List Message) (t : Message) : List Message :=
  let l2 := l ++ [t]
  if cap < l2.length then pySliceLast cap l2 else l2

/- ===================== LLM service ======================
   `src/services/llm_service.py`, class `LLMService`.  `self.llm.invoke` is
   an external capability; it is modelled as an oracle function from the
   message list passed to `invoke` to the outcome of the call
   (`Except String String`: either the response content or the raised
   provider exception rendered as a string). -/

/-- A LangChain chat message as passed to `self.llm.invoke`. -/
inductive ChatMsg where
  | system (content : String)
  | human (content : String)
  | ai (content : String)
deriving DecidableEq, Repr

/-- The outcome of one external language-model call. -/
abbrev LLMOracle := List ChatMsg → Except String String

/-- A LangChain `Document`: `page_content` plus a metadata dict. -/
structure Document where
  page_content : String
  metadata : Dict
deriving DecidableEq, Repr

/-- One entry of the `sources` list built by `generate_answer`. -/
structure SourceEntry where
  index : Nat
  content : String
  metadata : Dict
deriving DecidableEq, Repr

/-- The loop `for i, doc in enumerate(context_documents): sources.append(...)`
of `generate_answer`, unrolled with an explicit enumeration counter `k`
(top-level call uses `k = 0`). -/
def sourceEntriesFrom (k : Nat) : List Document → List SourceEntry
  | [] => []
  | d :: ds =>
      ⟨k + 1, pyStrTake 200 d.page_content ++ "...", d.metadata⟩ :: sourceEntriesFrom (k + 1) ds

/-- Python `sources` as built by `generate_answer` from the retrieved documents. -/
def buildSources (docs : List Document) : List SourceEntry :=
  sourceEntriesFrom 0 docs

/-- The loop `context_texts.append(f"[Source {i+1}]: {doc.page_content}")`
of `generate_answer`, with an explicit enumeration counter. -/
def contextTextsFrom (k : Nat) : List Document → List String
  | [] => []
  | d :: ds =>
      ("[Source " ++ toString (k + 1) ++ "]: " ++ d.page_content) :: contextTextsFrom (k + 1) ds

/-- Python `context_texts` as built by `generate_answer`. -/
def buildContextTexts (docs : List Document) : List String :=
  contextTextsFrom 0 docs

/-- The `system_prompt` f-string of `generate_answer`
(`context = "\n\n".join(context_texts)`). -/
def system_prompt (docs : List Document) : String :=
  "Answer based on context. Cite [Source X].\n"
    ++ String.intercalate "\n\n" (buildContextTexts docs)
    ++ "\n\nRules: Use only context. Be concise."

/-- The conversational context built by `generate_answer` when a session id
is supplied: the last 6 stored messages (`history[-6:]`), user entries as
`HumanMessage`, assistant entries as `AIMessage`, other roles skipped. -/
def historyMessages (mem : ConversationMemory) (session_id : String) : List ChatMsg :=
  (pySliceLast 6 (mem.get_history session_id)).filterMap fun msg =>
    if msg.role = "user" then some (ChatMsg.human msg.content)
    else if msg.role = "assistant" then some (ChatMsg.ai msg.content)
    else none

/-- The full message list `generate_answer` passes to `self.llm.invoke`. -/
def promptMessages (query : String) (docs : List Document)
    (session_id : Option String) (mem : ConversationMemory) : List ChatMsg :=
  [ChatMsg.system (system_prompt docs)]
    ++ (match session_id with
        | some sid => historyMessages mem sid
        | none => [])
    ++ [ChatMsg.human ("Question: " ++ query)]

/-- The result dict returned by `generate_answer`.  The `metadata` entry of
the Python dict (author, service id, model name, timestamp, watermark,
document count) consists of configuration constants and a timestamp that no
caller-relevant branch reads; it is dropped from the model. -/
structure AnswerResult where
  query : String
  answer : String
  sources : List SourceEntry
  session_id : Option String
deriving DecidableEq, Repr

/-- The keys of the result dict literally built at the end of
`generate_answer` (lines 187-201 of `llm_service.py`), plus the
`__watermark__` key that the `@protect` decorator adds to every dict-valued
result.  Note that there is no `"text"` key. -/
def answerResultKeys : List String :=
  ["query", "answer", "sources", "session_id", "metadata", "__watermark__"]

/-- The attributes of the `Settings` container built in
`config/settings.py`: `__init__` sets the nested lowercase config objects,
the class adds two properties and two methods; there are no flat uppercase
attributes and no dynamic attribute hook, so reading any other name raises
`AttributeError`. -/
def settingsAttrNames : List String :=
  ["app", "llm", "vector", "api", "comfyui", "logging",
   "is_fully_configured", "is_production", "is_development",
   "get_missing_config"]

/-- Python `LLMService.generate_answer` with the memory singleton threaded
explicitly.  Order of effects is the Python order: the prompt is built, the
model is invoked, and only if the call returns normally are the question and
the answer appended to memory (when a session id is present).  The result
dict is built after the memory writes, and its `metadata` entry evaluates
`settings.GROQ_MODEL if settings.LLM_PROVIDER == "groq" else
settings.OPENAI_MODEL`: these flat uppercase names must resolve as
attributes of the `Settings` container, and when they do not (the container
exposes only the nested lowercase configs) the resulting `AttributeError`
is caught by the handler, logged and re-raised -- after memory was already
mutated.  A failing `self.llm.invoke` is re-raised with memory untouched. -/
def generate_answer (query : String) (context_documents : List Document)
    (session_id : Option String) (llm : LLMOracle) (mem : ConversationMemory) :
    ConversationMemory × Except String AnswerResult :=
  let sources := buildSources context_documents
  match llm (promptMessages query context_documents session_id mem) with
  | .error e => (mem, .error e)
  | .ok answer =>
      let mem :=
        match session_id with
        | some sid => (mem.add_message sid "user" query).add_message sid "assistant" answer
        | none => mem
      if settingsAttrNames.contains "LLM_PROVIDER" then
        (mem, .ok ⟨query, answer, sources, session_id⟩)
      else
        (mem, .error "AttributeError: Settings object has no attribute LLM_PROVIDER")

/-- The `conv_context` lines of `generate_standalone_question`
(`f"{msg['role']}: {msg['content']}"` over `history[-4:]`). -/
def convContext (history : List Message) : List String :=
  (pySliceLast 4 history).map fun msg => msg.role ++ ": " ++ msg.content

/-- The rewrite prompt f-string of `generate_standalone_question`. -/
def standaloneQuestionPrompt (mem : ConversationMemory) (session_id query : String) : String :=
  "Given the conversation history, rewrite the user latest question to be standalone.\n"
    ++ "Include all necessary context from the conversation in the standalone question.\n\n"
    ++ "Conversation History:\n"
    ++ String.intercalate "\n" (convContext (mem.get_history session_id))
    ++ "\n\nLatest Question: " ++ query
    ++ "\n\nStandalone Question:"

/-- Python `LLMService.generate_standalone_question`.  The first component of the
result instruments whether `self.llm.invoke` was executed (the code returns
the query before building any prompt when the history is empty).  On a model
failure the handler logs and returns the original query. -/
def generate_standalone_question (query session_id : String) (llm : LLMOracle)
    (mem : ConversationMemory) : Bool × String :=
  let history := mem.get_history session_id
  if history.isEmpty then (false, query)
  else
    match llm [ChatMsg.human (standaloneQuestionPrompt mem session_id query)] with
    | .ok resp => (true, resp.trim)
    | .error _ => (true, query)

/- ===================== Vector store service ======================
   `src/services/vectorization.py`, class `VectorStoreService`.  The FAISS
   index is external; it is modelled by the list of documents it holds, and
   the embedding/search calls that can fail against the provider are taken
   as `Except` oracles. -/

/-- The Python exceptions the translated code can raise. -/
inductive PyError where
  | valueError (msg : String)
  | nameError (msg : String)
  | providerError (msg : String)
deriving DecidableEq, Repr

/-- Python `VectorStoreService.__init__`: `self.vector_store = None`.  The
`embeddings` client is an external handle; only its existence matters.
(The source's constructor also reads `settings.EMBEDDING_MODEL` and
`settings.OPENAI_API_KEY`, flat uppercase names the nested `Settings`
container does not expose -- startup configuration plumbing outside the
claimed operations; the claims are about the gated method bodies, which
behave as modelled for any service state with the given fields.) -/
structure VectorStoreService where
  embedding_model : String
  author : String
  service_id : String
  vector_store : Option (List Document)
deriving DecidableEq, Repr

/-- A freshly constructed `VectorStoreService(embedding_model)`. -/
def VectorStoreService.init (embedding_model : String) : VectorStoreService :=
  ⟨embedding_model, "Balenci Cash", "BC-VECTOR-2024", none⟩

/-- Modelled from the spec: `clear()` discards all vectors, so that
subsequent `search` calls fail with the not-initialized error until the next
`create`/`add`.  `VectorStoreService` itself has no `clear` method in
`src/services/vectorization.py` (the API layer in `src/api/main.py` calls
`vector_store.clear()` on it), so the operation is modelled from the words
of spec section 4.2: it resets the index handle to the uninitialized state. -/
def VectorStoreService.clear (svc : VectorStoreService) : VectorStoreService :=
  { svc with vector_store := none }

/-- The metadata stamp `create_vector_store` applies in place to every
incoming document before indexing. -/
def stampCreate (svc : VectorStoreService) (w : Watermark) (d : Document) : Document :=
  { d with metadata := (dictUpdate d.metadata
      [("vectorized_by", .s svc.author),
       ("vector_service", .s svc.service_id),
       ("vector_watermark", .s (pyStrTake 12 w.signature_hash))]) }

/-- The metadata stamp `add_documents` applies to every incoming document. -/
def stampAdd (svc : VectorStoreService) (d : Document) : Document :=
  { d with metadata := (dictUpdate d.metadata
      [("vectorized_by", .s svc.author),
       ("vector_service", .s svc.service_id)]) }

/-- Python `VectorStoreService.create_vector_store`: an empty document list raises
`ValueError("No documents provided for vector store creation")`; otherwise
the documents are stamped and `FAISS.from_documents` builds a fresh index
replacing `self.vector_store` (a failure of the external embedding call
would be re-raised; the oracle `build` carries that outcome). -/
def create_vector_store (svc : VectorStoreService) (w : Watermark)
    (documents : List Document) (build : Option PyError) : Except PyError VectorStoreService :=
  if documents.isEmpty then
    .error (.valueError "No documents provided for vector store creation")
  else
    let stamped := documents.map (stampCreate svc w)
    match build with
    | some e => .error e
    | none => .ok { svc with vector_store := some stamped }

/-- Python `VectorStoreService.add_documents`: `if not self.vector_store:` raises
`ValueError("Vector store not initialized. Create it first.")`; otherwise the
stamped documents are appended to the existing index. -/
def add_documents (svc : VectorStoreService) (documents : List Document) :
    Except PyError VectorStoreService :=
  match svc.vector_store with
  | none => .error (.valueError "Vector store not initialized. Create it first.")
  | some store =>
      let stamped := documents.map (stampAdd svc)
      .ok { svc with vector_store := some (store ++ stamped) }

/-- The `search_watermark` stamp applied to every search result. -/
def stampSearch (svc : VectorStoreService) (w : Watermark) (d : Document) : Document :=
  { d with metadata := (dictUpdate d.metadata
      [("search_watermark", .s (svc.author ++ ":" ++ pyStrTake 6 w.signature_hash))]) }

/-- Python `VectorStoreService.similarity_search`: `if not self.vector_store:`
raises `ValueError("Vector store not initialized")` before anything else;
otherwise the external FAISS similarity search runs (its outcome is the
oracle `search`: the ranked result list, or a re-raised provider error) and
the results are watermark-stamped. -/
def similarity_search (svc : VectorStoreService) (w : Watermark)
    (query : String) (k : Option Nat) (search : Except PyError (List Document)) :
    Except PyError (List Document) :=
  match svc.vector_store with
  | none => .error (.valueError "Vector store not initialized")
  | some _ =>
      match search with
      | .error e => .error e
      | .ok results => .ok (results.map (stampSearch svc w))

/-- Python `VectorStoreService.similarity_search_with_score`: same gate, but the
oracle result carries a native-scale score with each document and the score
is additionally written into the document metadata as `relevance_score`.
Scores are floating point; they are kept opaque (`σ`). -/
def similarity_search_with_score (σ : Type) (svc : VectorStoreService) (w : Watermark)
    (query : String) (k : Option Nat) (search : Except PyError (List (Document × σ))) :
    Except PyError (List (Document × σ)) :=
  match svc.vector_store with
  | none => .error (.valueError "Vector store not initialized")
  | some _ =>
      match search with
      | .error e => .error e
      | .ok results => .ok (results.map fun ds => (stampSearch svc w ds.1, ds.2))

/-- The names bound at module scope in `src/services/vectorization.py`
(its `import`/`from ... import` lines and its own top-level definitions).
`os` is not among them, so evaluating `os.path.exists` inside `load_index`
raises `NameError`. -/
def vectorizationModuleNames : List String :=
  ["List", "Dict", "Any", "Optional", "hashlib", "np",
   "RecursiveCharacterTextSplitter", "OpenAIEmbeddings", "FAISS", "Document",
   "logger", "protect", "protect_class", "watermark", "settings",
   "TextChunker", "VectorStoreService", "text_chunker", "vector_store_service"]

/-- Python `VectorStoreService.load_index`: `FAISS.load_local` is external (oracle
`load`).  If it raises, the handler re-raises.  If it returns, the index is
installed in `self.vector_store` and the watermark-verification step then
evaluates `os.path.exists(watermark_file)`; the name `os` has to resolve in
the module scope, and when it does not, the resulting `NameError` is caught
by the same handler and re-raised.  The returned pair is the post-call
service state (the index assignment happens before the failing line) and the
call outcome. -/
def load_index (svc : VectorStoreService) (load : Except PyError (List Document)) :
    VectorStoreService × Except PyError (List Document) :=
  match load with
  | .error e => (svc, .error e)
  | .ok store =>
      let svc := { svc with vector_store := some store }
      if vectorizationModuleNames.contains "os" then
        (svc, .ok store)
      else
        (svc, .error (.nameError "name os is not defined"))

/- ===================== Text splitter ======================
   Modelled from the spec: the chunk boundaries of `TextChunker.chunk_text`
   are produced by `RecursiveCharacterTextSplitter`, a langchain dependency
   whose source is not part of this repository.  `vectorization.py` only
   configures it (`chunk_size`, `chunk_overlap`, `length_function=len`,
   `separators=["\n\n", "\n", ".", "!", "?", ",", " ", ""]`, with the
   splitter defaults `keep_separator=True`, `is_separator_regex=False`).
   The definitions below follow the documented behaviour of that splitter,
   matching spec section 4.1 ("splits on a priority list of separators ...
   trying the coarsest separator first and falling back to finer ones only
   if a resulting piece still exceeds the configured maximum size"): the
   text is split on the first listed separator that occurs in it, pieces
   shorter than `chunk_size` are greedily merged back into chunks of at most
   `chunk_size` characters, and when a chunk is emitted the trailing pieces
   whose total length fits within `chunk_overlap` are retained to start the
   next chunk; oversized pieces are re-split with the remaining, finer
   separators.  Chunks are whitespace-stripped and empty chunks dropped. -/

/-- The separator priority list configured in `TextChunker.__init__`. -/
def defaultSeparators : List String :=
  ["\n\n", "\n", ".", "!", "?", ",", " ", ""]

/-- Whether `sep` is an initial run of `l`. -/
def startsWithChars : List Char → List Char → Bool
  | [], _ => true
  | _ :: _, [] => false
  | p :: ps, c :: cs => p == c && startsWithChars ps cs

/-- The 0-based position of the first occurrence of the non-empty `sep`. -/
def firstOccIdx (sep : List Char) : List Char → Option Nat
  | [] => none
  | c :: cs =>
      if startsWithChars sep (c :: cs) then some 0
      else (firstOccIdx sep cs).map (· + 1)

/-- Splitting on every non-overlapping occurrence of a non-empty separator,
leftmost first (the semantics of `re.split` on an escaped literal pattern).
`fuel` bounds the number of splits; `text.length + 1` always suffices. -/
def splitOnChars (fuel : Nat) (sep : List Char) (text : List Char) : List (List Char) :=
  match fuel with
  | 0 => [text]
  | fuel + 1 =>
      match firstOccIdx sep text with
      | none => [text]
      | some i => text.take i :: splitOnChars fuel sep (text.drop (i + sep.length))

/-- Python `text.split(sep)` / `re.split(re.escape(sep), text)` for a
non-empty literal separator. -/
def pySplitOn (text sep : String) : List String :=
  (splitOnChars (text.toList.length + 1) sep.toList text.toList).map String.mk

/-- The whitespace characters Python `str.strip()` removes (restricted to
the ASCII ones; none of the translated inputs carry other whitespace). -/
def isPySpace (c : Char) : Bool :=
  c == ' ' || c == '\t' || c == '\n' || c == '\r' || c == '\x0b' || c == '\x0c'

/-- Python `s.strip()`. -/
def pyStrip (s : String) : String :=
  String.mk (((s.toList.dropWhile isPySpace).reverse.dropWhile isPySpace).reverse)

/-- Python `sep.join(parts)`. -/
def joinStringList (sep : String) : List String → String
  | [] => ""
  | [x] => x
  | x :: xs => x ++ sep ++ joinStringList sep xs

/-- Python `sep in text` for a non-empty literal separator. -/
def occursIn (sep text : String) : Bool :=
  (firstOccIdx sep.toList text.toList).isSome

/-- Separator selection: the first separator that is `""` stops the scan
with no finer separators; otherwise the first separator occurring in the
text is chosen and the remaining ones become the fallback list. -/
def findSep (text : String) : List String → Option (String × List String)
  | [] => none
  | s :: rest =>
      if s = "" then some ("", [])
      else if occursIn s text then some (s, rest)
      else findSep text rest

/-- The selected separator, defaulting to the last listed one when none is
found (the configured list always ends in `""`, so the default case is
unreachable at the top level). -/
def chooseSep (text : String) (separators : List String) : String × List String :=
  match findSep text separators with
  | some r => r
  | none => (separators.getLast?.getD "", [])

/-- Splitting on one separator with `keep_separator`: each occurrence of the
separator is re-attached to the front of the following piece, and empty
pieces are dropped.  The empty separator splits into single characters. -/
def splitTextWithSep (text sep : String) : List String :=
  if sep = "" then
    text.toList.map (fun c => String.mk [c])
  else
    match pySplitOn text sep with
    | [] => []
    | t0 :: rest => (t0 :: rest.map (fun t => sep ++ t)).filter (fun s => s ≠ "")

/-- Joining the accumulated pieces into one chunk: concatenate, strip
whitespace, and drop the chunk when nothing remains. -/
def joinDocs (sep : String) (docs : List String) : Option String :=
  let text := pyStrip (joinStringList sep docs)
  if text = "" then none else some text

/-- The eviction loop run after a chunk is emitted: drop pieces from the
front of the current window while the retained total exceeds
`chunk_overlap`, or while the incoming piece of length `dLen` would not fit
into `chunk_size` alongside the retained total.  (When the window empties,
the retained total is zero and the loop has already stopped.) -/
def popWhile (cs co sepLen dLen : Nat) : List String → Nat → List String × Nat
  | [], total => ([], total)
  | c :: rest, total =>
      if co < total ∨ (cs < total + dLen + sepLen ∧ 0 < total) then
        popWhile cs co sepLen dLen rest
          (total - (c.length + if rest.isEmpty then 0 else sepLen))
      else (c :: rest, total)

/-- One step of the merge loop: when the incoming piece `d` would overflow
the current chunk, emit the joined current window, retain at most
`chunk_overlap` characters of trailing pieces, then append `d` to the
window. -/
def mergeStep (cs co : Nat) (sep : String)
    (st : List String × List String × Nat) (d : String) :
    List String × List String × Nat :=
  let (docs, cur, total) := st
  let dLen := d.length
  let (docs, cur, total) :=
    if cs < total + dLen + (if cur.isEmpty then 0 else sep.length) then
      if cur.isEmpty then (docs, cur, total)
      else
        let docs :=
          match joinDocs sep cur with
          | some doc => docs ++ [doc]
          | none => docs
        let (cur, total) := popWhile cs co sep.length dLen cur total
        (docs, cur, total)
    else (docs, cur, total)
  let cur := cur ++ [d]
  let total := total + dLen + (if 1 < cur.length then sep.length else 0)
  (docs, cur, total)

/-- Greedy merge of small pieces into chunks of at most `chunk_size`
characters with up to `chunk_overlap` characters retained across chunk
boundaries. -/
def mergeSplits (cs co : Nat) (sep : String) (splits : List String) : List String :=
  let (docs, cur, _) := splits.foldl (mergeStep cs co sep) ([], [], 0)
  match joinDocs sep cur with
  | some doc => docs ++ [doc]
  | none => docs

/-- The piece loop of one splitter level, with the handling of each piece
precomputed: a `Sum.inl` piece is shorter than `chunk_size` and accumulates
in `goods` to be merged with its neighbours; a `Sum.inr` piece is the chunk
list an oversized piece was turned into -- it first flushes the accumulated
run, then is emitted verbatim. -/
def assemblePieces (cs co : Nat) (goods : List String) :
    List (Sum String (List String)) → List String
  | [] => if goods.isEmpty then [] else mergeSplits cs co "" goods
  | Sum.inl s :: rest => assemblePieces cs co (goods ++ [s]) rest
  | Sum.inr chunks :: rest =>
      (if goods.isEmpty then [] else mergeSplits cs co "" goods)
        ++ chunks ++ assemblePieces cs co [] rest

/-- One level of the recursive splitter: split on the chosen separator,
handle each piece (pieces of at least `chunk_size` characters are emitted
as-is when no finer separator is left, and re-split recursively otherwise),
and run the piece loop (the splitter was configured with `keep_separator`,
so merging re-joins pieces with the empty separator).  `fuel` bounds the
recursion depth; each recursive call strictly shrinks the separator list,
so `defaultSeparators.length + 1` units always suffice. -/
def splitTextRec (cs co : Nat) : Nat → String → List String → List String
  | 0, _, _ => []
  | fuel + 1, text, separators =>
      let sel := chooseSep text separators
      let pieces := (splitTextWithSep text sel.1).map fun s =>
        if s.length < cs then Sum.inl s
        else Sum.inr (if sel.2.isEmpty then [s] else splitTextRec cs co fuel s sel.2)
      assemblePieces cs co [] pieces

/- ===================== Text chunker ======================
   `src/services/vectorization.py`, class `TextChunker`. -/

/-- Python `TextChunker.__init__(chunk_size=None, chunk_overlap=None)`:
`chunk_size or settings.CHUNK_SIZE` / `chunk_overlap or
settings.CHUNK_OVERLAP`, with the configured defaults 1000 and 200
(`config/vector_config.py`).  Note that `vectorization.py` reads the
defaults as flat uppercase attributes which the nested `Settings` container
does not expose, so in the source a defaulted construction raises
`AttributeError`; the chunking claims concern explicitly configured
chunkers, for which the source never consults `settings`. -/
structure TextChunker where
  chunk_size : Nat
  chunk_overlap : Nat
  author : String
  chunker_id : String
deriving DecidableEq, Repr

def TextChunker.init (chunk_size chunk_overlap : Option Nat) : TextChunker :=
  ⟨pyOrNat chunk_size 1000, pyOrNat chunk_overlap 200, "Balenci Cash", "BC-CHUNKER-2024"⟩

/-- Python `self.text_splitter.split_text(text)` with this chunker's settings. -/
def split_text (c : TextChunker) (text : String) : List String :=
  splitTextRec c.chunk_size c.chunk_overlap (defaultSeparators.length + 1) text defaultSeparators

/-- The watermark entries `chunk_text` merges into the base metadata. -/
def chunkerStamp (c : TextChunker) (w : Watermark) : List (String × PyVal) :=
  [("chunked_by", .s c.author),
   ("chunker_id", .s c.chunker_id),
   ("watermark", .s (pyStrTake 8 w.signature_hash))]

/-- The `for i, chunk in enumerate(chunks)` loop of `chunk_text`: each chunk
becomes a `Document` whose metadata is a copy of the base dict extended with
`chunk_index` and `chunk_hash` (`md5Hex` is the external md5 hex digest,
kept abstract). -/
def chunkDocsFrom (i : Nat) (base : Dict) (md5Hex : String → String) :
    List String → List Document
  | [] => []
  | ch :: rest =>
      ⟨ch, dictUpdate base [("chunk_index", .i i), ("chunk_hash", .s (pyStrTake 8 (md5Hex ch)))]⟩
        :: chunkDocsFrom (i + 1) base md5Hex rest

/-- Python `TextChunker.chunk_text(text, metadata=None)`.  The second component of
the result is the caller-supplied `metadata` object after the call: Python
`base_metadata = metadata or {}` aliases the caller's dict whenever
`metadata` is a non-empty dict (a `None` or empty dict is falsy and is
replaced by a fresh dict), and `base_metadata.update({...})` then mutates it
in place.  The per-chunk dicts are `.copy()`-ed, so only the watermark
entries reach the caller's object. -/
def chunk_text (c : TextChunker) (w : Watermark) (md5Hex : String → String)
    (text : String) (metadata : Option Dict) : List Document × Option Dict :=
  if text = "" then ([], metadata)
  else
    let stamped :=
      match metadata with
      | none => (dictUpdate [] (chunkerStamp c w), none)
      | some md =>
          if md.isEmpty then (dictUpdate [] (chunkerStamp c w), some md)
          else
            let shared := dictUpdate md (chunkerStamp c w)
            (shared, some shared)
    let chunks := split_text c text
    (chunkDocsFrom 0 stamped.1 md5Hex chunks, stamped.2)

/- ===================== RAG agent ======================
   `src/agents/rag_agent.py`, class `CleanRAGAgent`.  The LangGraph workflow
   `initialize → process_query → tools → generate_answer → finalize` with
   the two conditional error exits is translated into a direct composition
   of the node functions.  The prebuilt `ToolNode` executes the tool calls
   attached to the last message of `state["messages"]` (and fails when that
   message is not an AI message carrying tool calls); it returns tool
   messages, and never writes `state["documents"]`. -/

/-- A tool call as the `ToolNode` would read it off an AI message. -/
structure ToolCall where
  name : String
  args : List (String × String)
deriving DecidableEq, Repr

/-- A message of `state["messages"]`.  `HumanMessage` never carries tool
calls; `AIMessage` carries the `tool_calls` attribute; tool execution
results arrive as tool messages. -/
inductive Msg where
  | human (content : String)
  | ai (content : String) (tool_calls : List ToolCall)
  | toolResult (content : String)
deriving DecidableEq, Repr

/-- The `AgentState` TypedDict (the `metadata` entry only carries the agent
name, a timestamp and the watermark banner, none of which any branch reads;
it is dropped). -/
structure AgentState where
  session_id : String
  query : String
  messages : List Msg
  standalone_query : Option String
  documents : Option (List Document)
  answer : Option AnswerResult
  error : Option String
deriving Repr

/-- Python `CleanRAGAgent._generate_standalone_tool`: wraps
`generate_standalone_question` in a try/except that reports
`{"success": True, "standalone_query": ...}` on a normal return
(`generate_standalone_question` itself never raises: it catches the model
failure and falls back to the original query). -/
def generate_standalone_tool (query session_id : String) (llm : LLMOracle)
    (mem : ConversationMemory) : Except String String :=
  .ok (generate_standalone_question query session_id llm mem).2

/-- Python `CleanRAGAgent._process_query_node`: append the query to `messages`,
then, when there is more than the current query in `messages`, invoke the
standalone-question tool and store the rewritten question in
`state["standalone_query"]` when the tool reports success. -/
def process_query_node (st : AgentState) (llm : LLMOracle) (mem : ConversationMemory) :
    AgentState :=
  let messages := st.messages ++ [Msg.human st.query]
  let st := { st with messages := messages }
  if 1 < messages.length then
    match generate_standalone_tool st.query st.session_id llm mem with
    | .ok standalone => { st with standalone_query := some standalone }
    | .error _ => st
  else st

/-- The tool calls the prebuilt `ToolNode` finds to execute: the
`tool_calls` of the last message when that message is an AI message carrying
at least one of them. -/
def toolCallsOfLast (messages : List Msg) : Option (List ToolCall) :=
  match messages.getLast? with
  | some (.ai _ tcs) => if tcs.isEmpty then none else some tcs
  | _ => none

/-- The `tools` node.  Executing a `_retrieve_documents_tool` call would run
`vector_store.similarity_search_with_score(query)`; the second component of
the result records the list of query strings this node sends to the vector
index.  When the last message carries no tool calls the `ToolNode` fails and
the workflow routes to `finalize` via the error edge.  In every case the
node leaves `state["documents"]` untouched: tool output is delivered as tool
messages only. -/
def tools_node (st : AgentState) : AgentState × List String :=
  match toolCallsOfLast st.messages with
  | none => ({ st with error := some "ToolNode: last message carries no tool calls" }, [])
  | some tcs =>
      let queries := tcs.filterMap fun tc =>
        if tc.name = "_retrieve_documents_tool" then tc.args.lookup "query" else none
      ({ st with messages := st.messages ++ tcs.map (fun tc => Msg.toolResult tc.name) },
       queries)

/-- Python `CleanRAGAgent._generate_answer_node`: with no retrieved documents the
node sets the no-documents error without calling the LLM service; otherwise
it calls `generate_answer` and, on success, reads `answer["text"]` to build
the AI message -- the result dict built by `generate_answer` has no `"text"`
key (its key is `"answer"`), so that access raises `KeyError`, which the
node's handler converts into an error state.  Memory is only ever touched
inside `generate_answer`. -/
def generate_answer_node (st : AgentState) (llm : LLMOracle) (mem : ConversationMemory) :
    AgentState × ConversationMemory :=
  let documents := st.documents.getD []
  if documents.isEmpty then
    ({ st with error := some "No relevant documents found" }, mem)
  else
    match generate_answer st.query documents (some st.session_id) llm mem with
    | (mem, .error e) => ({ st with error := some e }, mem)
    | (mem, .ok a) =>
        if answerResultKeys.contains "text" then
          ({ st with answer := some a }, mem)
        else
          ({ st with error := some "KeyError: text" }, mem)

/-- Python `CleanRAGAgent._finalize_node`: on error append the apology AI message;
otherwise stamp `agent_metadata` onto the answer (metadata only; dropped). -/
def finalize_node (st : AgentState) : AgentState :=
  match st.error with
  | some _ =>
      { st with messages := st.messages
          ++ [Msg.ai "I apologize, but I encountered an error processing your request." []] }
  | none => st

/-- One full `graph.invoke` for a question: the node sequence
`initialize → process_query → tools → generate_answer → finalize` with
`_should_continue` routing any error state straight to `finalize`
(`initialize` only stamps metadata and is the identity here).  The result is
the final state, the memory after the run, and the trace of query strings
sent to the vector index. -/
def run_graph (query session_id : String) (prev : List Msg)
    (llmRewrite llmGenerate : LLMOracle) (mem : ConversationMemory) :
    AgentState × ConversationMemory × List String :=
  let st0 : AgentState := ⟨session_id, query, prev, none, none, none, none⟩
  let st1 := process_query_node st0 llmRewrite mem
  match st1.error with
  | some _ => (finalize_node st1, mem, [])
  | none =>
      let (st2, trace) := tools_node st1
      match st2.error with
      | some _ => (finalize_node st2, mem, trace)
      | none =>
          let (st3, mem) := generate_answer_node st2 llmGenerate mem
          (finalize_node st3, mem, trace)

/- ===================== Statement helpers and concrete inputs ===== -/

/-- Whether an `Except` result is a normal return. -/
def exceptIsOk : Except ε α → Bool
  | .ok _ => true
  | .error _ => false

/-- The last `n` characters of a string. -/
def strTailN (n : Nat) (s : String) : String :=
  String.mk (s.toList.drop (s.toList.length - n))

/-- The first `n` characters of a string. -/
def strHeadN (n : Nat) (s : String) : String :=
  String.mk (s.toList.take n)

/-- Whether the tail of `a` and the head of `b` coincide on at least `k`
characters (the overlap relation of spec section 8). -/
def sharesAtLeast (k : Nat) (a b : String) : Bool :=
  (List.range (min a.toList.length b.toList.length + 1)).any fun n =>
    decide (k ≤ n) && (strTailN n a == strHeadN n b)

/-- The largest number of characters on which the tail of `a` and the head
of `b` coincide. -/
def maxSharedOverlap (a b : String) : Nat :=
  ((List.range (min a.toList.length b.toList.length + 1)).filter
    (fun n => strTailN n a == strHeadN n b)).foldl max 0

/-- Concrete chunker for the overlap analysis: `TextChunker(10, 4)`
(`chunk_text` accepts explicit `chunk_size`/`chunk_overlap` arguments; the
overlap claim is stated for the configured `overlap_size`). -/
def c8Chunker : TextChunker := TextChunker.init (some 10) (some 4)

/-- Two-character-separated paragraphs, each longer than the configured
overlap: "aaaaaa\n\nbbbbbb\n\ncccccc". -/
def c8Text : String := "aaaaaa\n\nbbbbbb\n\ncccccc"

/-- The fragments `chunk_text` produces for `c8Text` (the digest oracles are
given arbitrary concrete values; they do not influence the chunk texts). -/
def c8Docs : List Document :=
  (chunk_text c8Chunker ⟨"0123456789abcdef"⟩ (fun _ => "d41d8cd9") c8Text
    (some [("source", PyVal.s "demo.txt")])).1

/-- Concrete caller-supplied metadata dict for the purity analysis. -/
def c6Meta : Dict := [("source", PyVal.s "test.txt")]

/-- The caller's metadata object after a `chunk_text("hello world", c6Meta)`
call. -/
def c6MetaAfter : Option Dict :=
  (chunk_text (TextChunker.init none none) ⟨"0123456789abcdef"⟩
    (fun _ => "d41d8cd98f00b204") "hello world" (some c6Meta)).2

/-- 25 turns (`2 * max_history + 5` for the default `max_history = 10`)
appended to one session, oldest first. -/
def c5Turns : List Message :=
  [⟨"user", "t01"⟩, ⟨"assistant", "t02"⟩, ⟨"user", "t03"⟩, ⟨"assistant", "t04"⟩,
   ⟨"user", "t05"⟩, ⟨"assistant", "t06"⟩, ⟨"user", "t07"⟩, ⟨"assistant", "t08"⟩,
   ⟨"user", "t09"⟩, ⟨"assistant", "t10"⟩, ⟨"user", "t11"⟩, ⟨"assistant", "t12"⟩,
   ⟨"user", "t13"⟩, ⟨"assistant", "t14"⟩, ⟨"user", "t15"⟩, ⟨"assistant", "t16"⟩,
   ⟨"user", "t17"⟩, ⟨"assistant", "t18"⟩, ⟨"user", "t19"⟩, ⟨"assistant", "t20"⟩,
   ⟨"user", "t21"⟩, ⟨"assistant", "t22"⟩, ⟨"user", "t23"⟩, ⟨"assistant", "t24"⟩,
   ⟨"user", "t25"⟩]

/- ============================================================
   Theorems.
   ============================================================ -/

/- ----- Conversation memory lemmas ----- -/

theorem get_history_add_message (m : ConversationMemory) (sid role content : String) :
    (m.add_message sid role content).get_history sid
      = trimStep (m.max_history * 2) (m.get_history sid) ⟨role, content⟩ := by
  simp [ConversationMemory.add_message, ConversationMemory.get_history, trimStep]

theorem get_history_add_all (sid : String) (ts : List Message) :
    ∀ m : ConversationMemory,
      (m.add_all sid ts).get_history sid
        = ts.foldl (trimStep (m.max_history * 2)) (m.get_history sid) := by
  induction ts with
  | nil => intro m; rfl
  | cons t ts ih =>
      intro m
      show ((m.add_message sid t.role t.content).add_all sid ts).get_history sid = _
      rw [ih (m.add_message sid t.role t.content)]
      have hmax : (m.add_message sid t.role t.content).max_history = m.max_history := rfl
      rw [hmax, get_history_add_message]
      rfl

theorem foldl_trimStep (cap : Nat) (hcap : 0 < cap) (ts : List Message) :
    ts.foldl (trimStep cap) [] = ts.drop (ts.length - cap) := by
  induction ts using List.reverseRecOn with
  | nil => simp
  | append_singleton l t ih =>
      rw [List.foldl_append, List.foldl_cons, List.foldl_nil, ih]
      by_cases h : l.length < cap
      · have h0 : l.length - cap = 0 := Nat.sub_eq_zero_of_le (le_of_lt h)
        have h1 : (l ++ [t]).length - cap = 0 := by
          simp only [List.length_append, List.length_singleton]; omega
        rw [h0, List.drop_zero, h1, List.drop_zero]
        unfold trimStep
        have hc : ¬ cap < (l ++ [t]).length := by
          simp only [List.length_append, List.length_singleton]; omega
        simp only [hc, if_false]
      · push_neg at h
        have hdlen : (l.drop (l.length - cap)).length = cap := by
          rw [List.length_drop]; omega
        unfold trimStep
        have hc : cap < (l.drop (l.length - cap) ++ [t]).length := by
          simp only [List.length_append, List.length_singleton, hdlen]; omega
        simp only [hc, if_true]
        unfold pySliceLast
        have hcap0 : ¬ cap = 0 := by omega
        simp only [hcap0, if_false]
        have hlen2 : (l.drop (l.length - cap) ++ [t]).length - cap = 1 := by
          simp only [List.length_append, List.length_singleton, hdlen]; omega
        rw [hlen2]
        rw [List.drop_append_of_le_length (by omega : 1 ≤ (l.drop (l.length - cap)).length)]
        rw [List.drop_drop]
        rw [List.drop_append_of_le_length
          (by simp only [List.length_append, List.length_singleton]; omega
            : (l ++ [t]).length - cap ≤ l.length)]
        congr 2
        simp only [List.length_append, List.length_singleton]
        omega

/-- C5: for every session and every sequence of `add_message` calls, the
stored turn list stays bounded to the most recent `max_history * 2` messages
with the oldest evicted first and the surviving turns in their original
chronological order (the history is always a suffix of the appended
sequence); in particular, after appending `2 * max_history + 5` turns to one
session, `get_history` returns exactly the last `2 * max_history` turns in
chronological order. -/
theorem c5_memory_bounded_fifo (mh : Nat) (hmh : 0 < mh) (sid : String) (ts : List Message) :
    ((ConversationMemory.init mh).add_all sid ts).get_history sid
        = ts.drop (ts.length - mh * 2)
    ∧ (((ConversationMemory.init mh).add_all sid ts).get_history sid).length ≤ mh * 2
    ∧ (ts.length = mh * 2 + 5 →
        ((ConversationMemory.init mh).add_all sid ts).get_history sid = ts.drop 5
        ∧ (((ConversationMemory.init mh).add_all sid ts).get_history sid).length = mh * 2) := by
  have h := get_history_add_all sid ts (ConversationMemory.init mh)
  have hinit : (ConversationMemory.init mh).get_history sid = [] := rfl
  have hmax : (ConversationMemory.init mh).max_history = mh := rfl
  rw [hinit, hmax] at h
  rw [h, foldl_trimStep (mh * 2) (by omega) ts]
  refine ⟨rfl, ?_, ?_⟩
  · rw [List.length_drop]; omega
  · intro hlen
    constructor
    · congr 1; omega
    · rw [List.length_drop]; omega

/-- C5 witness: with the default `max_history = 10`, appending the 25
concrete turns of `c5Turns` to session `"s"` leaves exactly the last 20 in
order. -/
theorem c5_memory_bounded_fifo_witness :
    0 < 10
    ∧ (c5Turns.length = 10 * 2 + 5)
    ∧ ((ConversationMemory.init 10).add_all "s" c5Turns).get_history "s" = c5Turns.drop 5 :=
  ⟨by decide, by decide,
    ((c5_memory_bounded_fifo 10 (by decide) "s" c5Turns).2.2 (by decide)).1⟩

/-- C4: the code violates the claim.  On a successful model call with a
session id, `generate_answer` first appends the question and the answer to
conversation memory and then raises -- building the result dict evaluates
`settings.LLM_PROVIDER`, which is not an attribute of the `Settings`
container -- so memory is mutated by a call that never yields a successful
synthesis result.  The failure cases the claim names do hold: a failing
model call, and the no-documents exit of the orchestrator, leave the stored
history completely unchanged. -/
theorem c4_memory_written_despite_failure :
    (generate_answer "What is the capital of France?"
        [⟨"Paris is the capital of France.", []⟩] (some "s")
        (fun _ => Except.ok "Paris [Source 1].") (ConversationMemory.init 10)).1
      = ((ConversationMemory.init 10).add_message "s" "user"
          "What is the capital of France?").add_message "s" "assistant" "Paris [Source 1]."
    ∧ exceptIsOk (generate_answer "What is the capital of France?"
        [⟨"Paris is the capital of France.", []⟩] (some "s")
        (fun _ => Except.ok "Paris [Source 1].") (ConversationMemory.init 10)).2 = false
    ∧ (generate_answer "What is the capital of France?"
        [⟨"Paris is the capital of France.", []⟩] (some "s")
        (fun _ => Except.error "boom") (ConversationMemory.init 10)).1
      = ConversationMemory.init 10
    ∧ (generate_answer_node
        ⟨"s", "What is the capital of France?", [], none, none, none, none⟩
        (fun _ => Except.ok "unused") (ConversationMemory.init 10)).2
      = ConversationMemory.init 10
    ∧ (generate_answer_node
        ⟨"s", "What is the capital of France?", [], none, none, none, none⟩
        (fun _ => Except.ok "unused") (ConversationMemory.init 10)).1.error
      = some "No relevant documents found" :=
  ⟨rfl, rfl, rfl, rfl, rfl⟩

/-- C9: `generate_standalone_question` returns the query unchanged without
invoking the model when the session has no history (the `Bool` component
instruments whether `self.llm.invoke` ran), and falls back to the original
query whenever the model call fails. -/
theorem c9_rewrite_fallback (query session_id : String) (llm : LLMOracle)
    (mem : ConversationMemory) :
    (mem.get_history session_id = [] →
        generate_standalone_question query session_id llm mem = (false, query))
    ∧ (∀ e, llm [ChatMsg.human (standaloneQuestionPrompt mem session_id query)] = .error e →
        (generate_standalone_question query session_id llm mem).2 = query) := by
  constructor
  · intro h
    simp [generate_standalone_question, h]
  · intro e he
    by_cases h : (mem.get_history session_id).isEmpty
    · simp [generate_standalone_question, h]
    · simp [generate_standalone_question, h, he]

/-- C9 witness: a fresh memory has no history for `"s"`, so the query comes
back unchanged with no model call; and with a Hamlet history in memory, a
failing model call still yields the original query. -/
theorem c9_rewrite_fallback_witness :
    (ConversationMemory.init 10).get_history "s" = []
    ∧ generate_standalone_question "When was he born?" "s"
        (fun _ => Except.ok "ignored") (ConversationMemory.init 10)
      = (false, "When was he born?")
    ∧ (generate_standalone_question "When was he born?" "s"
        (fun _ => Except.error "rate limit")
        (((ConversationMemory.init 10).add_message "s" "user" "Who wrote Hamlet?").add_message
          "s" "assistant" "Shakespeare")).2
      = "When was he born?" :=
  ⟨rfl,
   (c9_rewrite_fallback "When was he born?" "s" (fun _ => Except.ok "ignored")
      (ConversationMemory.init 10)).1 rfl,
   (c9_rewrite_fallback "When was he born?" "s" (fun _ => Except.error "rate limit")
      (((ConversationMemory.init 10).add_message "s" "user" "Who wrote Hamlet?").add_message
        "s" "assistant" "Shakespeare")).2 "rate limit" rfl⟩

/-- C3: searching a never-populated index -- a freshly constructed service,
or one whose index was discarded by `clear` -- raises the not-initialized
`ValueError` for every query, every `k` and every outcome of the external
search, and never produces a successful (in particular, empty-but-
successful) result list. -/
theorem c3_uninitialized_search_raises (em query : String) (w : Watermark) (k : Option Nat)
    (search : Except PyError (List Document)) (svc : VectorStoreService) :
    similarity_search (VectorStoreService.init em) w query k search
        = .error (.valueError "Vector store not initialized")
    ∧ similarity_search svc.clear w query k search
        = .error (.valueError "Vector store not initialized")
    ∧ exceptIsOk (similarity_search (VectorStoreService.init em) w query k search) = false
    ∧ exceptIsOk (similarity_search svc.clear w query k search) = false :=
  ⟨rfl, rfl, rfl, rfl⟩

/-- C2 counterexample: on a freshly constructed service (no index exists
yet), `add_documents` with a non-empty fragment list does not behave as
`create` and succeed -- it raises the not-initialized `ValueError`. -/
theorem c2_add_on_uninitialized_counterexample :
    add_documents (VectorStoreService.init "text-embedding-ada-002")
        [⟨"Paris is the capital of France.", []⟩]
      = .error (.valueError "Vector store not initialized. Create it first.")
    ∧ exceptIsOk (add_documents (VectorStoreService.init "text-embedding-ada-002")
        [⟨"Paris is the capital of France.", []⟩]) = false :=
  ⟨rfl, rfl⟩

/-- C2 amended: for every fragment list, calling `add_documents` on a
service in which no index exists yet fails with
`ValueError("Vector store not initialized. Create it first.")` instead of
behaving as `create`; a fresh index must be built through
`create_vector_store`, which succeeds on any non-empty fragment list when
the external embedding call returns. -/
theorem c2_add_requires_initialized (svc : VectorStoreService) (w : Watermark)
    (documents : List Document) (h : svc.vector_store = none) :
    add_documents svc documents
        = .error (.valueError "Vector store not initialized. Create it first.")
    ∧ (documents ≠ [] →
        create_vector_store svc w documents none
          = .ok { svc with vector_store := some (documents.map (stampCreate svc w)) }) := by
  constructor
  · simp [add_documents, h]
  · intro hne
    simp [create_vector_store, hne]

/-- C2 witness: the amended claim at a fresh service and one concrete
fragment. -/
theorem c2_add_requires_initialized_witness :
    (VectorStoreService.init "text-embedding-3-small").vector_store = none
    ∧ ([⟨"doc one", []⟩] : List Document) ≠ []
    ∧ add_documents (VectorStoreService.init "text-embedding-3-small") [⟨"doc one", []⟩]
        = .error (.valueError "Vector store not initialized. Create it first.")
    ∧ create_vector_store (VectorStoreService.init "text-embedding-3-small") ⟨"sig"⟩
        [⟨"doc one", []⟩] none
      = .ok { VectorStoreService.init "text-embedding-3-small" with
          vector_store := some ([⟨"doc one", []⟩].map
            (stampCreate (VectorStoreService.init "text-embedding-3-small") ⟨"sig"⟩)) } :=
  ⟨rfl, by decide,
   (c2_add_requires_initialized (VectorStoreService.init "text-embedding-3-small") ⟨"sig"⟩
      [⟨"doc one", []⟩] rfl).1,
   (c2_add_requires_initialized (VectorStoreService.init "text-embedding-3-small") ⟨"sig"⟩
      [⟨"doc one", []⟩] rfl).2 (by decide)⟩

/-- C10: `load_index` never returns a loaded index: a failing external
`FAISS.load_local` is re-raised unchanged, and a successful one reaches the
watermark-verification line `os.path.exists(...)` whose name `os` does not
resolve in the module scope of `vectorization.py`, so the call raises the
re-raised `NameError`; in all cases the outcome is an exception. -/
theorem c10_load_index_always_raises (svc : VectorStoreService)
    (load : Except PyError (List Document)) :
    exceptIsOk (load_index svc load).2 = false
    ∧ (∀ e, load = .error e → (load_index svc load).2 = .error e)
    ∧ (∀ store, load = .ok store →
        (load_index svc load).2 = .error (.nameError "name os is not defined")) := by
  refine ⟨?_, ?_, ?_⟩
  · cases load with
    | error e => rfl
    | ok store => rfl
  · intro e he; subst he; rfl
  · intro store h; subst h; rfl

/-- C10 witness: both branches at concrete inputs. -/
theorem c10_load_index_always_raises_witness :
    (Except.error (PyError.valueError "index folder missing")
        : Except PyError (List Document))
      = .error (.valueError "index folder missing")
    ∧ ((Except.ok [⟨"stored doc", []⟩] : Except PyError (List Document)) = .ok [⟨"stored doc", []⟩])
    ∧ (load_index (VectorStoreService.init "text-embedding-ada-002")
        (Except.error (PyError.valueError "index folder missing"))).2
      = .error (.valueError "index folder missing")
    ∧ (load_index (VectorStoreService.init "text-embedding-ada-002")
        (Except.ok [⟨"stored doc", []⟩])).2
      = .error (.nameError "name os is not defined") :=
  ⟨rfl, rfl,
   (c10_load_index_always_raises (VectorStoreService.init "text-embedding-ada-002")
      (Except.error (PyError.valueError "index folder missing"))).2.1
      (PyError.valueError "index folder missing") rfl,
   (c10_load_index_always_raises (VectorStoreService.init "text-embedding-ada-002")
      (Except.ok [⟨"stored doc", []⟩])).2.2 [⟨"stored doc", []⟩] rfl⟩

/- ----- Source-citation lemmas ----- -/

theorem sourceEntriesFrom_getElem (docs : List Document) :
    ∀ (k n : Nat) (d : Document), docs[n]? = some d →
      (sourceEntriesFrom k docs)[n]?
        = some ⟨k + n + 1, pyStrTake 200 d.page_content ++ "...", d.metadata⟩ := by
  induction docs with
  | nil => intro k n d h; simp at h
  | cons x xs ih =>
      intro k n d h
      cases n with
      | zero =>
          rw [List.getElem?_cons_zero] at h
          rw [Option.some.injEq] at h
          subst h
          simp [sourceEntriesFrom]
      | succ n =>
          rw [List.getElem?_cons_succ] at h
          have h2 := ih (k + 1) n d h
          simp only [sourceEntriesFrom, List.getElem?_cons_succ]
          rw [h2]
          have harith : k + 1 + n + 1 = k + (n + 1) + 1 := by omega
          rw [harith]

theorem contextTextsFrom_getElem (docs : List Document) :
    ∀ (k n : Nat) (d : Document), docs[n]? = some d →
      (contextTextsFrom k docs)[n]?
        = some ("[Source " ++ toString (k + n + 1) ++ "]: " ++ d.page_content) := by
  induction docs with
  | nil => intro k n d h; simp at h
  | cons x xs ih =>
      intro k n d h
      cases n with
      | zero =>
          rw [List.getElem?_cons_zero] at h
          rw [Option.some.injEq] at h
          subst h
          simp [contextTextsFrom]
      | succ n =>
          rw [List.getElem?_cons_succ] at h
          have h2 := ih (k + 1) n d h
          simp only [contextTextsFrom, List.getElem?_cons_succ]
          rw [h2]
          have harith : k + 1 + n + 1 = k + (n + 1) + 1 := by omega
          rw [harith]

theorem sourceEntriesFrom_length (docs : List Document) :
    ∀ k, (sourceEntriesFrom k docs).length = docs.length := by
  induction docs with
  | nil => intro k; rfl
  | cons x xs ih => intro k; simpa [sourceEntriesFrom] using ih (k + 1)

/-- C7: the construction half of the claim holds in the source -- the
grounding context prefixes the fragment at 0-based position `n` with the
marker `[Source n+1]`, and the `sources` list is built before the model call
in the same fragment order, the entry at position `n` carrying the 1-based
index `n + 1` together with the fragment excerpt and metadata -- but
`generate_answer` never returns that sources sequence to any caller: for
every input and every model outcome the call raises (a failing model call is
re-raised, and after a successful one the result-dict metadata evaluates
`settings.LLM_PROVIDER`, which the `Settings` container does not expose, so
the `AttributeError` is re-raised).  The claimed return is the spec's clear
intent (and what the repository's own `test_llm.py` expects); the code
fails it. -/
theorem c7_citation_built_but_never_returned (docs : List Document) :
    (∀ n d, docs[n]? = some d →
        (buildContextTexts docs)[n]?
            = some ("[Source " ++ toString (n + 1) ++ "]: " ++ d.page_content)
        ∧ (buildSources docs)[n]?
            = some ⟨n + 1, pyStrTake 200 d.page_content ++ "...", d.metadata⟩)
    ∧ (buildSources docs).length = docs.length
    ∧ (∀ (query : String) (session_id : Option String) (llm : LLMOracle)
        (mem : ConversationMemory),
        exceptIsOk (generate_answer query docs session_id llm mem).2 = false) := by
  refine ⟨?_, sourceEntriesFrom_length docs 0, ?_⟩
  · intro n d h
    constructor
    · have h2 := contextTextsFrom_getElem docs 0 n d h
      rw [Nat.zero_add] at h2
      exact h2
    · have h2 := sourceEntriesFrom_getElem docs 0 n d h
      rw [Nat.zero_add] at h2
      exact h2
  · intro query session_id llm mem
    have hattr : "LLM_PROVIDER" ∉ settingsAttrNames := by decide
    cases hllm : llm (promptMessages query docs session_id mem) with
    | error e => simp [generate_answer, hllm, exceptIsOk]
    | ok ans => simp [generate_answer, hllm, hattr, exceptIsOk]

/-- C7 witness: the construction at a concrete one-fragment list (marker
`[Source 1]` and source index 1), and the never-returning `generate_answer`
call at a concrete successful model outcome. -/
theorem c7_citation_built_but_never_returned_witness :
    ([(⟨"Paris is the capital of France.", []⟩ : Document)][0]?
        = some ⟨"Paris is the capital of France.", []⟩)
    ∧ (buildContextTexts [⟨"Paris is the capital of France.", []⟩])[0]?
        = some "[Source 1]: Paris is the capital of France."
    ∧ (buildSources [⟨"Paris is the capital of France.", []⟩])[0]?
        = some ⟨1, pyStrTake 200 "Paris is the capital of France." ++ "...", []⟩
    ∧ exceptIsOk (generate_answer "What is the capital of France?"
        [⟨"Paris is the capital of France.", []⟩] (some "sess")
        (fun _ => Except.ok "The capital is Paris [Source 1].")
        (ConversationMemory.init 10)).2 = false :=
  ⟨rfl,
   ((c7_citation_built_but_never_returned [⟨"Paris is the capital of France.", []⟩]).1
      0 ⟨"Paris is the capital of France.", []⟩ rfl).1,
   ((c7_citation_built_but_never_returned [⟨"Paris is the capital of France.", []⟩]).1
      0 ⟨"Paris is the capital of France.", []⟩ rfl).2,
   (c7_citation_built_but_never_returned [⟨"Paris is the capital of France.", []⟩]).2.2
      "What is the capital of France?" (some "sess")
      (fun _ => Except.ok "The capital is Paris [Source 1].")
      (ConversationMemory.init 10)⟩

/-- C6 counterexample: `chunk_text` does not leave the caller-supplied
metadata map unchanged: for the non-empty input dict `c6Meta`,
`base_metadata = metadata or {}` aliases the caller's dict and the watermark
update mutates it in place, so after the call the caller's object carries
the three extra watermark keys. -/
theorem c6_chunk_text_mutates_metadata_counterexample :
    c6MetaAfter
      = some [("source", PyVal.s "test.txt"),
              ("chunked_by", PyVal.s "Balenci Cash"),
              ("chunker_id", PyVal.s "BC-CHUNKER-2024"),
              ("watermark", PyVal.s "01234567")]
    ∧ decide (c6MetaAfter = some c6Meta) = false := by
  constructor
  · decide
  · decide

/-- C6 amended: the fragments `chunk_text` returns are a function of the
input text, metadata and chunker configuration alone, but the operation is
not free of side effects on its arguments: for non-empty text, a non-empty
caller-supplied metadata dict is mutated in place by adding the watermark
entries (`chunked_by`, `chunker_id`, `watermark`), while a `None` or empty
metadata argument, or an empty text, leaves the caller's argument
untouched. -/
theorem c6_chunk_text_metadata_effect (c : TextChunker) (w : Watermark)
    (md5Hex : String → String) (text : String) (md : Dict)
    (htext : text ≠ "") (hmd : md ≠ []) :
    (chunk_text c w md5Hex text (some md)).2 = some (dictUpdate md (chunkerStamp c w))
    ∧ (chunk_text c w md5Hex text none).2 = none
    ∧ (chunk_text c w md5Hex text (some [])).2 = some []
    ∧ (chunk_text c w md5Hex "" (some md)).2 = some md := by
  have hmde : md.isEmpty = false := by
    cases md with
    | nil => exact absurd rfl hmd
    | cons a l => rfl
  refine ⟨?_, ?_, ?_, ?_⟩
  · simp [chunk_text, htext, hmde]
  · simp [chunk_text, htext]
  · simp [chunk_text, htext]
  · simp [chunk_text]

/-- C6 witness: the amended claim at the concrete chunker, text and
metadata of the counterexample. -/
theorem c6_chunk_text_metadata_effect_witness :
    ("hello world" : String) ≠ ""
    ∧ c6Meta ≠ []
    ∧ (chunk_text (TextChunker.init none none) ⟨"0123456789abcdef"⟩
        (fun _ => "d41d8cd98f00b204") "hello world" (some c6Meta)).2
      = some (dictUpdate c6Meta
          (chunkerStamp (TextChunker.init none none) ⟨"0123456789abcdef"⟩)) :=
  ⟨by decide, by decide,
   (c6_chunk_text_metadata_effect (TextChunker.init none none) ⟨"0123456789abcdef"⟩
      (fun _ => "d41d8cd98f00b204") "hello world" c6Meta (by decide) (by decide)).1⟩

/-- C8 counterexample: with `TextChunker(chunk_size=10, chunk_overlap=4)`,
chunking `"aaaaaa\n\nbbbbbb\n\ncccccc"` produces the three fragments
`"aaaaaa"`, `"bbbbbb"`, `"cccccc"`; the boundary between fragments 0 and 1
is interior to the document (fragment 2 follows), yet the tail of fragment 0
and the head of fragment 1 do not coincide on `overlap_size = 4` (or any
positive number of) characters: when the piece ending a chunk is longer than
`chunk_overlap`, the splitter carries nothing over. -/
theorem c8_overlap_counterexample :
    c8Docs.map Document.page_content = ["aaaaaa", "bbbbbb", "cccccc"]
    ∧ sharesAtLeast c8Chunker.chunk_overlap "aaaaaa" "bbbbbb" = false
    ∧ sharesAtLeast c8Chunker.chunk_overlap "bbbbbb" "cccccc" = false := by
  refine ⟨?_, ?_, ?_⟩
  · decide
  · decide
  · decide

/-- C8 amended: the configured `overlap_size` is a best-effort upper bound
on the material carried across a chunk boundary, not a guaranteed minimum:
adjacent fragments of one document may share fewer than `overlap_size`
characters -- even none at all -- whenever the trailing piece before the
boundary is longer than `overlap_size`; in the concrete three-fragment
chunking of `c8Text` both interior boundaries share zero characters while
the configured overlap is positive. -/
theorem c8_overlap_best_effort :
    c8Docs.length = 3
    ∧ maxSharedOverlap "aaaaaa" "bbbbbb" = 0
    ∧ maxSharedOverlap "bbbbbb" "cccccc" = 0
    ∧ 0 < c8Chunker.chunk_overlap := by
  refine ⟨?_, ?_, ?_, ?_⟩
  · decide
  · decide
  · decide
  · decide

/- ----- Orchestrator lemmas ----- -/

theorem process_query_node_fields (st : AgentState) (llm : LLMOracle)
    (mem : ConversationMemory) :
    (process_query_node st llm mem).error = st.error
    ∧ (process_query_node st llm mem).messages = st.messages ++ [Msg.human st.query]
    ∧ (process_query_node st llm mem).documents = st.documents := by
  simp only [process_query_node, generate_standalone_tool]
  split <;> exact ⟨rfl, rfl, rfl⟩

theorem toolCallsOfLast_append_human (ms : List Msg) (c : String) :
    toolCallsOfLast (ms ++ [Msg.human c]) = none := by
  simp [toolCallsOfLast, List.getLast?_concat]

/-- C1: the orchestrator never queries the vector index at all -- with the
rewritten standalone question or with anything else.  `_process_query_node`
always leaves a `HumanMessage` as the last entry of `state["messages"]`, so
the `ToolNode` finds no tool calls to execute; the trace of retrieval
queries of any run is empty, `state["documents"]` is never populated, and
every run terminates in the error state produced at the tools node.  The
rewritten standalone question, when one is produced, is stored in
`state["standalone_query"]` and never consumed by retrieval. -/
theorem c1_retrieval_never_queried (query session_id : String) (prev : List Msg)
    (llmRewrite llmGenerate : LLMOracle) (mem : ConversationMemory) :
    (run_graph query session_id prev llmRewrite llmGenerate mem).2.2 = []
    ∧ (run_graph query session_id prev llmRewrite llmGenerate mem).1.error
        = some "ToolNode: last message carries no tool calls"
    ∧ (run_graph query session_id prev llmRewrite llmGenerate mem).1.documents = none
    ∧ (run_graph query session_id prev llmRewrite llmGenerate mem).2.1 = mem := by
  have hfields := process_query_node_fields
    ⟨session_id, query, prev, none, none, none, none⟩ llmRewrite mem
  obtain ⟨herr, hmsgs, hdocs⟩ := hfields
  simp only [run_graph]
  rw [herr]
  simp only [tools_node]
  rw [hmsgs, toolCallsOfLast_append_human]
  simp only [finalize_node]
  refine ⟨?_, ?_, ?_, ?_⟩ <;> simp [hdocs]

end RAGSys
